import Mathlib

/-!
Verification of the moodboard repository's board-access and data-consistency
model, as described in its design specification.

The definitions below are a shallow embedding of the client code:

* `hashPassword` embeds `hashPassword` from `src/lib/supabase.js`, which
  computes the SHA-256 digest of the UTF-8 encoding of the password via
  `crypto.subtle.digest` and renders it as lowercase hex
  (`b.toString(16).padStart(2, '0')`).  SHA-256 itself (FIPS 180-4) is
  implemented over `Nat` with explicit reduction modulo `2 ^ 32`.
* The store (Supabase) is modelled as an in-memory database `DB` holding the
  three collections of `schema.sql` (boards, labels, images), with the
  schema's constraints (unique board name, `ON DELETE SET NULL` on
  `images.label_id`) embedded in the store operations.
* The asynchronous UI handlers are modelled as pure functions from their
  inputs and the outcome of each store call to the sequence of local-state
  snapshots and the list of store operations they issue.
-/

namespace Moodboard

/-! ## SHA-256 (FIPS 180-4) over `Nat`, bytes as `Nat` values below 256 -/

/-- Reduce a `Nat` to a 32-bit word. -/
def w32 (n : Nat) : Nat := n % 4294967296

/-- Right-rotation of a 32-bit word by `n` bits. -/
def rotr (n x : Nat) : Nat := w32 ((x >>> n) ||| (x <<< (32 - n)))

/-- Bitwise complement within 32 bits. -/
def notw (x : Nat) : Nat := 4294967295 ^^^ x

/-- Choice function of the SHA-256 round. -/
def ch (e f g : Nat) : Nat := (e &&& f) ^^^ (notw e &&& g)

/-- Majority function of the SHA-256 round. -/
def maj (a b c : Nat) : Nat := (a &&& b) ^^^ (a &&& c) ^^^ (b &&& c)

/-- Big sigma-0 of SHA-256. -/
def bsig0 (x : Nat) : Nat := rotr 2 x ^^^ rotr 13 x ^^^ rotr 22 x

/-- Big sigma-1 of SHA-256. -/
def bsig1 (x : Nat) : Nat := rotr 6 x ^^^ rotr 11 x ^^^ rotr 25 x

/-- Small sigma-0 of SHA-256. -/
def ssig0 (x : Nat) : Nat := rotr 7 x ^^^ rotr 18 x ^^^ (x >>> 3)

/-- Small sigma-1 of SHA-256. -/
def ssig1 (x : Nat) : Nat := rotr 17 x ^^^ rotr 19 x ^^^ (x >>> 10)

/-- Round constants of SHA-256 (FIPS 180-4 section 4.2.2), in decimal. -/
def kConsts : List Nat :=
  [1116352408, 1899447441, 3049323471, 3921009573, 961987163,
   1508970993, 2453635748, 2870763221, 3624381080, 310598401,
   607225278, 1426881987, 1925078388, 2162078206, 2614888103,
   3248222580, 3835390401, 4022224774, 264347078, 604807628,
   770255983, 1249150122, 1555081692, 1996064986, 2554220882,
   2821834349, 2952996808, 3210313671, 3336571891, 3584528711,
   113926993, 338241895, 666307205, 773529912, 1294757372,
   1396182291, 1695183700, 1986661051, 2177026350, 2456956037,
   2730485921, 2820302411, 3259730800, 3345764771, 3516065817,
   3600352804, 4094571909, 275423344, 430227734, 506948616,
   659060556, 883997877, 958139571, 1322822218, 1537002063,
   1747873779, 1955562222, 2024104815, 2227730452, 2361852424,
   2428436474, 2756734187, 3204031479, 3329325298]

/-- Initial hash values of SHA-256 (FIPS 180-4 section 5.3.3), in decimal. -/
def hInit : List Nat :=
  [1779033703, 3144134277, 1013904242, 2773480762,
   1359893119, 2600822924, 528734635, 1541459225]

/-- Big-endian 8-byte encoding of a (64-bit) length. -/
def be64 (n : Nat) : List Nat :=
  [(n >>> 56) % 256, (n >>> 48) % 256, (n >>> 40) % 256, (n >>> 32) % 256,
   (n >>> 24) % 256, (n >>> 16) % 256, (n >>> 8) % 256, n % 256]

/-- Big-endian 4-byte encoding of a 32-bit word. -/
def be32 (n : Nat) : List Nat :=
  [(n >>> 24) % 256, (n >>> 16) % 256, (n >>> 8) % 256, n % 256]

/-- SHA-256 message padding: append `0x80`, zero bytes up to 56 mod 64, then
the 8-byte big-endian bit length. -/
def padMessage (msg : List Nat) : List Nat :=
  let L := msg.length
  let zeros := (119 - L % 64) % 64
  msg ++ 0x80 :: List.replicate zeros 0 ++ be64 (8 * L)

/-- Split a byte list into 64-byte blocks (fuel-driven to stay structural). -/
def toBlocksAux : Nat → List Nat → List (List Nat)
  | 0, _ => []
  | _, [] => []
  | fuel + 1, l => l.take 64 :: toBlocksAux fuel (l.drop 64)

/-- Split a padded message into its 64-byte blocks. -/
def toBlocks (l : List Nat) : List (List Nat) := toBlocksAux l.length l

/-- Pack bytes into big-endian 32-bit words. -/
def toWords : List Nat → List Nat
  | b0 :: b1 :: b2 :: b3 :: rest =>
      ((b0 <<< 24) ||| (b1 <<< 16) ||| (b2 <<< 8) ||| b3) :: toWords rest
  | _ => []

/-- Extend the 16 block words by `n` further schedule words; the accumulator
holds the schedule so far in reverse order. -/
def extendW : Nat → List Nat → List Nat
  | 0, rev => rev
  | n + 1, rev =>
      let w := w32 (ssig1 (rev.getD 1 0) + rev.getD 6 0 +
                    ssig0 (rev.getD 14 0) + rev.getD 15 0)
      extendW n (w :: rev)

/-- Full 64-word message schedule of one block. -/
def schedule (first16 : List Nat) : List Nat :=
  (extendW 48 first16.reverse).reverse

/-- One SHA-256 compression round on the state `[a, b, c, d, e, f, g, h]`. -/
def compressStep : List Nat → Nat × Nat → List Nat
  | [a, b, c, d, e, f, g, h], (ki, wi) =>
      let t1 := w32 (h + bsig1 e + ch e f g + ki + wi)
      let t2 := w32 (bsig0 a + maj a b c)
      [w32 (t1 + t2), a, b, c, w32 (d + t1), e, f, g]
  | s, _ => s

/-- Process one 64-byte block against the running hash values. -/
def processBlock (hs : List Nat) (block : List Nat) : List Nat :=
  let ws := schedule (toWords block)
  let out := (kConsts.zip ws).foldl compressStep hs
  (hs.zip out).map (fun p => w32 (p.1 + p.2))

/-- SHA-256 of a byte sequence, as the 32 digest bytes. -/
def sha256 (msg : List Nat) : List Nat :=
  ((toBlocks (padMessage msg)).foldl processBlock hInit).map be32 |>.flatten

/-- Hex digit character for a value below 16. -/
def hexChar (n : Nat) : Char :=
  "0123456789abcdef".toList.getD n '0'

/-- Two-digit lowercase hex of one byte, as in
`b.toString(16).padStart(2, '0')`. -/
def byteToHex (b : Nat) : List Char := [hexChar (b / 16), hexChar (b % 16)]

/-- Lowercase hex string of a byte sequence. -/
def bytesToHex (bs : List Nat) : String := String.mk (bs.map byteToHex).flatten

/-- UTF-8 encoding of one scalar value, as `TextEncoder` produces it. -/
def utf8EncodeChar (c : Char) : List Nat :=
  let n := c.toNat
  if n < 0x80 then [n]
  else if n < 0x800 then
    [0xC0 ||| (n >>> 6), 0x80 ||| (n &&& 0x3F)]
  else if n < 0x10000 then
    [0xE0 ||| (n >>> 12), 0x80 ||| ((n >>> 6) &&& 0x3F), 0x80 ||| (n &&& 0x3F)]
  else
    [0xF0 ||| (n >>> 18), 0x80 ||| ((n >>> 12) &&& 0x3F),
     0x80 ||| ((n >>> 6) &&& 0x3F), 0x80 ||| (n &&& 0x3F)]

/-- UTF-8 byte sequence of a string (`new TextEncoder().encode(s)`). -/
def utf8Bytes (s : String) : List Nat := (s.toList.map utf8EncodeChar).flatten

/-- Embedding of `hashPassword` (src/lib/supabase.js): SHA-256 over the UTF-8
encoding of the password, rendered as lowercase hex. -/
def hashPassword (password : String) : String :=
  bytesToHex (sha256 (utf8Bytes password))

/-! ## JavaScript string helpers -/

/-- Whitespace recognised by JavaScript `String.prototype.trim` (the ASCII
whitespace characters; the handlers only ever trim user-typed names and
passwords). -/
def isJsWhitespace (c : Char) : Bool :=
  c == ' ' || c == '\t' || c == '\n' || c == '\r' || c == '\x0b' || c == '\x0c'

/-- Embedding of JavaScript `s.trim()`. -/
def jsTrim (s : String) : String :=
  String.mk (((s.toList.dropWhile isJsWhitespace).reverse.dropWhile
    isJsWhitespace).reverse)

/-! ## Data model (schema.sql: boards, labels, images) -/

/-- A row of the `boards` table. -/
structure Board where
  id : String
  name : String
  password_hash : String
  deletion_password_hash : String
  note : String := ""
  created_at : Nat := 0
deriving DecidableEq, Repr

/-- A row of the `labels` table. -/
structure LabelRow where
  id : String
  board_id : String
  name : String
  color : String := "#a78bfa"
  created_at : Nat := 0
deriving DecidableEq, Repr

/-- The joined label projection `label:labels(id, name, color)` that image
queries attach to each image row. -/
structure LabelInfo where
  id : String
  name : String
  color : String
deriving DecidableEq, Repr

/-- A row of the `images` table. -/
structure ImageRow where
  id : String
  board_id : String
  label_id : Option String := none
  drive_file_id : String := ""
  drive_url : String := ""
  filename : String := ""
  is_selected : Bool := false
  comment : Option String := none
  created_at : Nat := 0
deriving DecidableEq, Repr

/-- An image as the client holds it: the row plus the joined label data. -/
structure Image where
  id : String
  board_id : String
  label_id : Option String := none
  drive_file_id : String := ""
  drive_url : String := ""
  filename : String := ""
  is_selected : Bool := false
  comment : Option String := none
  created_at : Nat := 0
  label : Option LabelInfo := none
deriving DecidableEq, Repr

/-- The hosted store: the three collections of schema.sql. -/
structure DB where
  boards : List Board := []
  labels : List LabelRow := []
  images : List ImageRow := []
deriving DecidableEq, Repr

/-- Projection of a label row to its joined form. -/
def labelInfoOf (l : LabelRow) : LabelInfo := ⟨l.id, l.name, l.color⟩

/-- Attach the joined label data to an image row, as the
`label:labels(id, name, color)` select clause does. -/
def joinLabel (labels : List LabelRow) (r : ImageRow) : Image :=
  { id := r.id, board_id := r.board_id, label_id := r.label_id,
    drive_file_id := r.drive_file_id, drive_url := r.drive_url,
    filename := r.filename, is_selected := r.is_selected,
    comment := r.comment, created_at := r.created_at,
    label := r.label_id.bind fun lid =>
      (labels.find? (fun l => l.id == lid)).map labelInfoOf }

/-! ## Store client operations (src/lib/supabase.js) -/

/-- Result object of `verifyBoardPassword`: `{success, board?, error?}`. -/
structure VerifyOutcome where
  success : Bool
  board : Option Board := none
  error : Option String := none
deriving DecidableEq, Repr

/-- Embedding of `getBoardByName`: select from `boards` filtered by exact
name; `null` (here `none`) when no row matches. -/
def getBoardByName (db : DB) (name : String) : Option Board :=
  db.boards.find? (fun b => b.name == name)

/-- Coercion a JavaScript `undefined` argument undergoes inside
`TextEncoder.encode`, whose WebIDL signature defaults the input to the empty
string.  `none` stands for `undefined`. -/
def jsOptString : Option String → String
  | some s => s
  | none => ""

/-- Embedding of `createBoard(name, password, deletionPassword)`: hash both
passwords, insert the row; the database's unique constraint on `boards.name`
(error code 23505) is mapped to the duplicate-name message.  The returned
`DB` is the store after the call (unchanged on error). -/
def createBoard (db : DB) (newId : String) (now : Nat)
    (name password : String) (deletionPassword : Option String) :
    DB × Except String Board :=
  let passwordHash := hashPassword password
  let deletionPasswordHash := hashPassword (jsOptString deletionPassword)
  if db.boards.any (fun b => b.name == name) then
    (db, .error "A board with this name already exists")
  else
    let b : Board := { id := newId, name := name,
                       password_hash := passwordHash,
                       deletion_password_hash := deletionPasswordHash,
                       created_at := now }
    ({ db with boards := db.boards ++ [b] }, .ok b)

/-- Embedding of `verifyBoardPassword(name, password)`. -/
def verifyBoardPassword (db : DB) (name password : String) : VerifyOutcome :=
  match getBoardByName db name with
  | none => { success := false, error := some "Board not found" }
  | some board =>
    if hashPassword password == board.password_hash then
      { success := true, board := some board }
    else
      { success := false, error := some "Incorrect password" }

/-- Embedding of `verifyDeletionPassword(boardId, deletionPassword)`. -/
def verifyDeletionPassword (db : DB) (boardId deletionPassword : String) :
    VerifyOutcome :=
  match db.boards.find? (fun b => b.id == boardId) with
  | none => { success := false, error := some "Board not found" }
  | some board =>
    if hashPassword deletionPassword == board.deletion_password_hash then
      { success := true }
    else
      { success := false, error := some "Incorrect deletion password" }

/-- Store-side effect of `deleteLabel(labelId)`: the row is removed and the
schema's `ON DELETE SET NULL` clears `label_id` on images that held it. -/
def deleteLabelStore (db : DB) (labelId : String) : DB :=
  { db with
    labels := db.labels.filter (fun l => !(l.id == labelId)),
    images := db.images.map (fun r =>
      if r.label_id == some labelId then { r with label_id := none } else r) }

/-- Insertion step for ordering image rows by `created_at` descending. -/
def insertByCreatedDesc (r : ImageRow) : List ImageRow → List ImageRow
  | [] => [r]
  | x :: xs =>
    if x.created_at < r.created_at then r :: x :: xs
    else x :: insertByCreatedDesc r xs

/-- Order image rows by `created_at` descending. -/
def sortByCreatedDesc (l : List ImageRow) : List ImageRow :=
  l.foldr insertByCreatedDesc []

/-- Embedding of `getBoardImages(boardId)`: the board's image rows, newest
first, each with the joined label data. -/
def getBoardImages (db : DB) (boardId : String) : List Image :=
  (sortByCreatedDesc (db.images.filter (fun r => r.board_id == boardId))).map
    (joinLabel db.labels)

/-! ## View-state derivations (src/pages/Board.jsx) -/

/-- Filter constant `FILTER_ALL`. -/
def FILTER_ALL : String := "all"

/-- Filter constant `FILTER_SELECTED`. -/
def FILTER_SELECTED : String := "selected"

/-- Filter constant `FILTER_UNSELECTED`. -/
def FILTER_UNSELECTED : String := "unselected"

/-- Label-filter test `img.label?.id === selectedLabelFilter` of the
`filteredImages` memo. -/
def labelMatches (selectedLabelFilter : String) (img : Image) : Bool :=
  match img.label with
  | some l => l.id == selectedLabelFilter
  | none => false

/-- Embedding of the `filteredImages` memo (Board.jsx 147-163): the selection
filter is applied first, then the label filter; the empty string for
`selectedLabelFilter` is JavaScript-falsy and disables the label filter. -/
def filteredImages (images : List Image)
    (activeFilter selectedLabelFilter : String) : List Image :=
  let result := images
  let result :=
    if activeFilter == FILTER_SELECTED then
      result.filter (fun img => img.is_selected)
    else if activeFilter == FILTER_UNSELECTED then
      result.filter (fun img => !img.is_selected)
    else result
  if selectedLabelFilter == "" then result
  else result.filter (labelMatches selectedLabelFilter)

/-- Embedding of `imageNumber = totalImages - index` (ImageCard.jsx 31).
Board.jsx passes `index` as the position within `filteredImages` and
`totalImages` as `filteredImages.length`. -/
def imageNumber (totalImages index : Nat) : Nat := totalImages - index

/-! ## Image ingestion (src/lib/googleDrive.js and UploadModal.jsx) -/

/-- Metadata `uploadFileToDrive` returns for one uploaded file. -/
structure UploadResult where
  driveFileId : String
  filename : String
  driveUrl : String
deriving DecidableEq, Repr

/-- Embedding of `uploadImages(files, onProgress)`: each file is attempted
independently and sequentially; a failed upload is logged and skipped and the
loop continues.  The upload outcome of each file is supplied by `up` (`none`
models a rejected drive request). -/
def uploadImages (files : List String) (up : String → Option UploadResult) :
    List UploadResult :=
  match files with
  | [] => []
  | f :: fs =>
    match up f with
    | some r => r :: uploadImages fs up
    | none => uploadImages fs up

/-- An insert record built by `addMultipleImages` for one uploaded file. -/
structure InsertRecord where
  board_id : String
  drive_file_id : String
  drive_url : String
  filename : String
  label_id : Option String
  is_selected : Bool := false
  comment : Option String := none
deriving DecidableEq, Repr

/-- Record mapping of `addMultipleImages(boardId, images, labelId)`. -/
def addMultipleImagesRecords (boardId : String) (images : List UploadResult)
    (labelId : Option String) : List InsertRecord :=
  images.map (fun img =>
    { board_id := boardId, drive_file_id := img.driveFileId,
      drive_url := img.driveUrl, filename := img.filename,
      label_id := labelId })

/-- Outcome of the upload-modal submit: the batch of records handed to the
store, the success count reported in the toast, and whether an error toast
was shown instead. -/
structure UploadOutcome where
  inserted : List InsertRecord
  successToastCount : Option Nat
  errorToast : Bool
deriving DecidableEq, Repr

/-- Embedding of `handleUpload` (UploadModal.jsx 62-93): reject an empty
selection; upload the batch; insert records only for the files that uploaded
successfully and report their count, or toast an error if none succeeded. -/
def handleUpload (boardId : String) (files : List String)
    (up : String → Option UploadResult) (selectedLabelId : Option String) :
    UploadOutcome :=
  if files.isEmpty then
    { inserted := [], successToastCount := none, errorToast := true }
  else
    let uploadedFiles := uploadImages files up
    if uploadedFiles.length > 0 then
      { inserted := addMultipleImagesRecords boardId uploadedFiles selectedLabelId,
        successToastCount := some uploadedFiles.length,
        errorToast := false }
    else
      { inserted := [], successToastCount := none, errorToast := true }

/-! ## Board creation (src/pages/Home.jsx) -/

/-- Store calls a handler issues, in order. -/
inductive StoreOp where
  | createBoardOp (name password : String) (deletionPassword : Option String)
  | deleteLabelOp (labelId : String)
  | deleteImageOp (imageId : String)
  | verifyDeletionOp (boardId password : String)
  | getBoardImagesOp (boardId : String)
deriving DecidableEq, Repr

/-- Form state of the create-board modal: it has exactly one name field and
one password field (Home.jsx 263-291). -/
structure CreateBoardForm where
  newBoardName : String
  newBoardPassword : String
deriving DecidableEq, Repr

/-- Outcome of the create-board submit handler. -/
structure HomeCreateOutcome where
  db : DB
  board : Option Board
  toastError : Option String
  ops : List StoreOp
deriving DecidableEq, Repr

/-- Embedding of `handleCreateBoard` (Home.jsx 46-83): three client-side
validations, then `createBoard(newBoardName.trim(), newBoardPassword)` —
called with two arguments only, so `deletionPassword` is `undefined`
(modelled as `none`). -/
def handleCreateBoard (db : DB) (newId : String) (now : Nat)
    (form : CreateBoardForm) : HomeCreateOutcome :=
  if jsTrim form.newBoardName == "" then
    { db := db, board := none, toastError := some "Please enter a board name",
      ops := [] }
  else if jsTrim form.newBoardPassword == "" then
    { db := db, board := none, toastError := some "Please enter a password",
      ops := [] }
  else if form.newBoardPassword.length < 4 then
    { db := db, board := none,
      toastError := some "Password must be at least 4 characters", ops := [] }
  else
    let op := StoreOp.createBoardOp (jsTrim form.newBoardName)
      form.newBoardPassword none
    match createBoard db newId now (jsTrim form.newBoardName)
        form.newBoardPassword none with
    | (db', .ok b) =>
      { db := db', board := some b, toastError := none, ops := [op] }
    | (db', .error msg) =>
      { db := db', board := none, toastError := some msg, ops := [op] }

/-! ## Interactive image mutations (src/components/ImageCard.jsx)

Each handler is modelled as a pure function from the pre-state and the
outcome of its store call (`some updated` for a resolved request carrying
the authoritative record, `none` for a rejected one) to the sequence of
local-state snapshots the user can observe: the state before the handler
runs, the state while the request is in flight, and the final state. -/

/-- Local state an `ImageCard` exposes for the selected flag: the card's own
`isSelected` state plus the board-level copy of the image. -/
structure ToggleState where
  cardSelected : Bool
  boardCopy : Image
deriving DecidableEq, Repr

/-- Run of a mutation handler: the observable local-state snapshots in order
(pre, in-flight, final) and whether an error toast was shown. -/
structure MutationRun (σ : Type) where
  states : List σ
  errorToast : Bool
deriving DecidableEq, Repr

/-- Embedding of `handleToggle` (ImageCard.jsx 33-51): flip `isSelected`
optimistically before the store call; on success hand the authoritative
record to `onUpdate`; on failure revert the flag and toast. -/
def handleToggleRun (img : Image) (store : Option Image) :
    MutationRun ToggleState :=
  let newValue := !img.is_selected
  match store with
  | some updated =>
    { states := [⟨img.is_selected, img⟩, ⟨newValue, img⟩, ⟨newValue, updated⟩],
      errorToast := false }
  | none =>
    { states := [⟨img.is_selected, img⟩, ⟨newValue, img⟩,
                 ⟨img.is_selected, img⟩],
      errorToast := true }

/-- Embedding of `handleSaveComment` (ImageCard.jsx 92-106): the board copy
of the image is untouched until the store call resolves; on success it is
replaced by the authoritative record, on failure only an error is toasted. -/
def handleSaveCommentRun (img : Image) (_draft : String)
    (store : Option Image) : MutationRun Image :=
  match store with
  | some updated => { states := [img, img, updated], errorToast := false }
  | none => { states := [img, img, img], errorToast := true }

/-- Embedding of `handleLabelChange` (ImageCard.jsx 108-117): no local state
is written before the store call; on success the authoritative record
replaces the board copy, on failure an error is toasted. -/
def handleLabelChangeRun (img : Image) (_newLabelId : Option String)
    (store : Option Image) : MutationRun Image :=
  match store with
  | some updated => { states := [img, img, updated], errorToast := false }
  | none => { states := [img, img, img], errorToast := true }

/-! ## Image deletion flows (ImageCard.jsx and Board.jsx) -/

/-- Result of a deletion flow: the store calls issued in order, the local
image list afterwards, and whether an error toast was shown. -/
structure DeleteFlowResult where
  ops : List StoreOp
  images : List Image
  errorToast : Bool
deriving DecidableEq, Repr

/-- Embedding of `handleConfirmDelete` (ImageCard.jsx 61-90): an empty
(trimmed) candidate returns early; otherwise `verifyDeletionPassword` runs
first and `deleteImage` is reached only on a successful verification.
`deleteOk` models whether the `deleteImage` request itself resolves. -/
def handleConfirmDelete (db : DB) (boardId imageId : String)
    (images : List Image) (deletionPassword : String) (deleteOk : Bool) :
    DeleteFlowResult :=
  if jsTrim deletionPassword == "" then
    { ops := [], images := images, errorToast := false }
  else
    let result := verifyDeletionPassword db boardId deletionPassword
    let verifyOp := StoreOp.verifyDeletionOp boardId deletionPassword
    if !result.success then
      { ops := [verifyOp], images := images, errorToast := true }
    else if deleteOk then
      { ops := [verifyOp, .deleteImageOp imageId],
        images := images.filter (fun img => !(img.id == imageId)),
        errorToast := false }
    else
      { ops := [verifyOp, .deleteImageOp imageId], images := images,
        errorToast := true }

/-- Embedding of the delete button of the Board.jsx detail modal (637-661):
`prompt` may be cancelled (`none`) or return a falsy empty string, both of
which return early; otherwise the same verify-then-delete sequence runs. -/
def boardDetailDelete (db : DB) (boardId imageId : String)
    (images : List Image) (promptResult : Option String) (deleteOk : Bool) :
    DeleteFlowResult :=
  match promptResult with
  | none => { ops := [], images := images, errorToast := false }
  | some pwd =>
    if pwd == "" then { ops := [], images := images, errorToast := false }
    else
      let result := verifyDeletionPassword db boardId pwd
      let verifyOp := StoreOp.verifyDeletionOp boardId pwd
      if !result.success then
        { ops := [verifyOp], images := images, errorToast := true }
      else if deleteOk then
        { ops := [verifyOp, .deleteImageOp imageId],
          images := images.filter (fun img => !(img.id == imageId)),
          errorToast := false }
      else
        { ops := [verifyOp, .deleteImageOp imageId], images := images,
          errorToast := true }

/-! ## Label deletion flow (LabelManager and Board.jsx) -/

/-- Client-held view state of the open board. -/
structure ClientState where
  labels : List LabelRow := []
  images : List Image := []
deriving DecidableEq, Repr

/-- Result of the label-deletion flow: the store afterwards, the client view
afterwards, and the store calls issued. -/
structure LabelDeleteResult where
  db : DB
  client : ClientState
  ops : List StoreOp
deriving DecidableEq, Repr

/-- Embedding of `handleDeleteLabel` (LabelManager 57-68) wired to
`handleLabelsChange` (Board.jsx 141-144): after the confirm dialog and a
successful `deleteLabel` call, the client filters the deleted label out of
its labels list and does nothing else — in particular it issues no
`getBoardImages` re-read, so `client.images` is left as it was. -/
def handleDeleteLabel (db : DB) (client : ClientState) (labelId : String)
    (confirmed storeOk : Bool) : LabelDeleteResult :=
  if !confirmed then { db := db, client := client, ops := [] }
  else if storeOk then
    { db := deleteLabelStore db labelId,
      client := { client with
        labels := client.labels.filter (fun l => !(l.id == labelId)) },
      ops := [.deleteLabelOp labelId] }
  else
    { db := db, client := client, ops := [.deleteLabelOp labelId] }

/-! ## Concrete fixtures used by witnesses and counterexamples -/

/-- The empty store. -/
def emptyDB : DB := {}

/-- A stored board whose view password is "pw" and deletion password "dp". -/
def boardPw : Board :=
  { id := "b1", name := "board", password_hash := hashPassword "pw",
    deletion_password_hash := hashPassword "dp" }

/-- A store holding exactly `boardPw`. -/
def dbOne : DB := { boards := [boardPw] }

/-- A selected image created at time 2 (most recent), labelled "X". -/
def imgNew : Image :=
  { id := "i1", board_id := "b1", label_id := some "X", is_selected := true,
    created_at := 2, label := some ⟨"X", "ref", "#f87171"⟩ }

/-- An unselected, unlabelled image created at time 1. -/
def imgOld : Image :=
  { id := "i2", board_id := "b1", is_selected := false, created_at := 1 }

end Moodboard

namespace Moodboard

/-! ## Claims -/

/-- C1: for every stored board `B`, `verifyBoardPassword(B.name, p)` returns
success together with `B` exactly when the SHA-256 hex digest of `p` equals
`B`'s stored view-password hash; a name with no stored board yields a
"Board not found" failure, and any other candidate yields an
"Incorrect password" failure carrying no board. -/
theorem verifyBoardPassword_correct (db : DB) (B : Board) (p : String)
    (hB : getBoardByName db B.name = some B) :
    (verifyBoardPassword db B.name p =
        { success := true, board := some B } ↔
      hashPassword p = B.password_hash) ∧
    (∀ name, getBoardByName db name = none →
      verifyBoardPassword db name p =
        { success := false, error := some "Board not found" }) ∧
    (hashPassword p ≠ B.password_hash →
      verifyBoardPassword db B.name p =
        { success := false, error := some "Incorrect password" }) := by
  refine ⟨?_, ?_, ?_⟩
  · constructor
    · intro h
      unfold verifyBoardPassword at h
      rw [hB] at h
      by_cases hc : hashPassword p == B.password_hash
      · exact eq_of_beq hc
      · simp only [hc, if_false] at h
        simp at h
    · intro h
      unfold verifyBoardPassword
      rw [hB]
      simp [h]
  · intro name hn
    unfold verifyBoardPassword
    rw [hn]
  · intro h
    unfold verifyBoardPassword
    rw [hB]
    have hc : (hashPassword p == B.password_hash) = false :=
      beq_eq_false_iff_ne.mpr h
    simp [hc]

/-- Witness for C1 on a concrete store: the correct password grants access
and returns the board, an unknown name reports "Board not found", and a
wrong password reports "Incorrect password". -/
theorem verifyBoardPassword_correct_witness :
    verifyBoardPassword dbOne "board" "pw" =
      { success := true, board := some boardPw } ∧
    verifyBoardPassword dbOne "missing" "pw" =
      { success := false, error := some "Board not found" } ∧
    verifyBoardPassword dbOne "board" "bad" =
      { success := false, error := some "Incorrect password" } := by
  have h1 := verifyBoardPassword_correct dbOne boardPw "pw" (by decide)
  have h2 := verifyBoardPassword_correct dbOne boardPw "bad" (by decide)
  exact ⟨h1.1.mpr rfl, h1.2.1 "missing" (by decide), h2.2.2 (by decide)⟩

/-- C5: creating a board whose exact name already exists fails with the
duplicate-name error and leaves the store unchanged. -/
theorem createBoard_duplicate_name (db : DB) (newId : String) (now : Nat)
    (name password : String) (deletionPassword : Option String)
    (h : db.boards.any (fun b => b.name == name) = true) :
    createBoard db newId now name password deletionPassword =
      (db, .error "A board with this name already exists") := by
  unfold createBoard
  simp [h]

/-- Witness for C5: re-creating "board" on a store that already holds it
fails with the duplicate-name error and persists nothing. -/
theorem createBoard_duplicate_name_witness :
    createBoard dbOne "b2" 1 "board" "otherpw" none =
      (dbOne, .error "A board with this name already exists") :=
  createBoard_duplicate_name dbOne "b2" 1 "board" "otherpw" none (by decide)

/-- C10: the create-board submit invokes the store's `createBoard` exactly
when the trimmed name is non-empty, the trimmed password is non-empty and
the (untrimmed) password has at least 4 characters; any input violating the
checks surfaces an error, makes no store call and leaves the store
unchanged. -/
theorem handleCreateBoard_validation (db : DB) (newId : String) (now : Nat)
    (form : CreateBoardForm) :
    (jsTrim form.newBoardName = "" ∨ jsTrim form.newBoardPassword = "" ∨
        form.newBoardPassword.length < 4 →
      (handleCreateBoard db newId now form).ops = [] ∧
      (handleCreateBoard db newId now form).db = db ∧
      (handleCreateBoard db newId now form).toastError.isSome = true) ∧
    ((handleCreateBoard db newId now form).ops ≠ [] →
      jsTrim form.newBoardName ≠ "" ∧ jsTrim form.newBoardPassword ≠ "" ∧
        4 ≤ form.newBoardPassword.length) ∧
    (jsTrim form.newBoardName ≠ "" → jsTrim form.newBoardPassword ≠ "" →
      4 ≤ form.newBoardPassword.length →
      (handleCreateBoard db newId now form).ops =
        [.createBoardOp (jsTrim form.newBoardName)
          form.newBoardPassword none]) := by
  unfold handleCreateBoard
  by_cases h1 : jsTrim form.newBoardName = ""
  · simp [h1]
  · have e1 : (jsTrim form.newBoardName == "") = false :=
      beq_eq_false_iff_ne.mpr h1
    by_cases h2 : jsTrim form.newBoardPassword = ""
    · simp [e1, h1, h2]
    · have e2 : (jsTrim form.newBoardPassword == "") = false :=
        beq_eq_false_iff_ne.mpr h2
      by_cases h3 : form.newBoardPassword.length < 4
      · simp [e1, e2, h1, h2, h3, Nat.not_le_of_lt h3]
      · rcases hcb : createBoard db newId now (jsTrim form.newBoardName)
            form.newBoardPassword none with ⟨db', r⟩
        cases r <;> simp [e1, e2, h1, h2, h3, hcb, Nat.le_of_not_lt h3]

/-- Witness for C10: a 3-character password is rejected with no store call
and an unchanged store; a valid form issues exactly the create call. -/
theorem handleCreateBoard_validation_witness :
    (handleCreateBoard dbOne "b9" 5
        { newBoardName := "b", newBoardPassword := "abc" }).ops = [] ∧
    (handleCreateBoard dbOne "b9" 5
        { newBoardName := "b", newBoardPassword := "abc" }).db = dbOne ∧
    (handleCreateBoard dbOne "b9" 5
        { newBoardName := "b", newBoardPassword := "abc" }).toastError.isSome
      = true ∧
    (handleCreateBoard dbOne "b9" 5
        { newBoardName := " b2 ", newBoardPassword := "pass" }).ops =
      [.createBoardOp "b2" "pass" none] := by
  have h1 := (handleCreateBoard_validation dbOne "b9" 5
    { newBoardName := "b", newBoardPassword := "abc" }).1
    (Or.inr (Or.inr (by decide)))
  have h2 := (handleCreateBoard_validation dbOne "b9" 5
    { newBoardName := " b2 ", newBoardPassword := "pass" }).2.2
    (by decide) (by decide) (by decide)
  exact ⟨h1.1, h1.2.1, h1.2.2, h2⟩

/-- C2 (code bug): the create-board action collects only a name and a single
password (Home.jsx's form has no deletion-password field) and calls
`createBoard(name, password)` with two arguments, so `deletionPassword` is
`undefined` and the persisted deletion-password hash is the SHA-256 digest
of the empty string rather than of a user-chosen second password.  The view
password is hashed as specified. -/
theorem createBoard_missing_deletion_password :
    (handleCreateBoard emptyDB "id1" 0
        { newBoardName := "b", newBoardPassword := "pass" }).ops =
      [.createBoardOp "b" "pass" none] ∧
    ((handleCreateBoard emptyDB "id1" 0
        { newBoardName := "b", newBoardPassword := "pass" }).board.map
      (fun b => b.deletion_password_hash)) = some (hashPassword "") ∧
    ((handleCreateBoard emptyDB "id1" 0
        { newBoardName := "b", newBoardPassword := "pass" }).board.map
      (fun b => b.password_hash)) = some (hashPassword "pass") := by
  refine ⟨rfl, rfl, rfl⟩

/-- C3 counterexample: changing an image's label is not applied to the local
in-memory copy before the store call.  With the store call failing, every
observable snapshot of the local copy — including the in-flight one — still
carries the old label "X", never the requested label "Y"; so the change is
neither applied optimistically nor (there being nothing to revert) rolled
back, contradicting the claim that every interactive mutation follows the
optimistic pattern. -/
theorem mutation_not_all_optimistic :
    handleLabelChangeRun imgNew (some "Y") none =
      { states := [imgNew, imgNew, imgNew], errorToast := true } ∧
    imgNew.label_id = some "X" ∧ (some "X" : Option String) ≠ some "Y" := by
  decide

/-- C3 amended: only the selected-flag toggle follows the full
optimistic-update-with-rollback pattern (apply locally, replace with the
authoritative record on success, revert and toast on failure).  Comment
saves and label changes leave the local copy untouched until the store call
succeeds and only toast on failure; deletion removes the local copy only
after both the password verification and the store delete succeed, and
leaves it unchanged (with an error toast) when the delete call fails. -/
theorem mutation_patterns (img updated : Image) (draft : String)
    (newLabelId : Option String) (db : DB) (boardId imageId : String)
    (images : List Image) (pwd : String) :
    handleToggleRun img (some updated) =
      { states := [⟨img.is_selected, img⟩, ⟨!img.is_selected, img⟩,
                   ⟨!img.is_selected, updated⟩], errorToast := false } ∧
    handleToggleRun img none =
      { states := [⟨img.is_selected, img⟩, ⟨!img.is_selected, img⟩,
                   ⟨img.is_selected, img⟩], errorToast := true } ∧
    handleSaveCommentRun img draft (some updated) =
      { states := [img, img, updated], errorToast := false } ∧
    handleSaveCommentRun img draft none =
      { states := [img, img, img], errorToast := true } ∧
    handleLabelChangeRun img newLabelId (some updated) =
      { states := [img, img, updated], errorToast := false } ∧
    handleLabelChangeRun img newLabelId none =
      { states := [img, img, img], errorToast := true } ∧
    (jsTrim pwd ≠ "" →
      (verifyDeletionPassword db boardId pwd).success = true →
      handleConfirmDelete db boardId imageId images pwd true =
        { ops := [.verifyDeletionOp boardId pwd, .deleteImageOp imageId],
          images := images.filter (fun i => !(i.id == imageId)),
          errorToast := false }) ∧
    (jsTrim pwd ≠ "" →
      (verifyDeletionPassword db boardId pwd).success = true →
      handleConfirmDelete db boardId imageId images pwd false =
        { ops := [.verifyDeletionOp boardId pwd, .deleteImageOp imageId],
          images := images, errorToast := true }) := by
  refine ⟨rfl, rfl, rfl, rfl, rfl, rfl, ?_, ?_⟩ <;>
    · intro hp hs
      unfold handleConfirmDelete
      simp [beq_eq_false_iff_ne.mpr hp, hs]

/-- Witness for C3 (amended): on a concrete store, deleting image "i1" with
the correct deletion password removes exactly that image from the local
list after the store confirms. -/
theorem mutation_patterns_witness :
    handleConfirmDelete dbOne "b1" "i1" [imgNew, imgOld] "dp" true =
      { ops := [.verifyDeletionOp "b1" "dp", .deleteImageOp "i1"],
        images := [imgNew, imgOld].filter (fun i => !(i.id == "i1")),
        errorToast := false } :=
  (mutation_patterns imgNew imgNew "" none dbOne "b1" "i1" [imgNew, imgOld]
    "dp").2.2.2.2.2.2.1 (by decide) (by decide)

/-- Successes of a best-effort batch are exactly the files whose upload
resolved, in input order. -/
lemma uploadImages_eq_filterMap (files : List String)
    (up : String → Option UploadResult) :
    uploadImages files up = files.filterMap up := by
  induction files with
  | nil => rfl
  | cons f fs ih =>
    unfold uploadImages
    cases h : up f <;> simp [h, ih]

/-- C4: batch direct upload attempts each file independently in input
order, skipping failures; the batch of records handed to the store covers
exactly the files that uploaded successfully and the reported success count
is their number, which can be less than the number selected. -/
theorem uploadImages_best_effort (boardId : String) (files : List String)
    (up : String → Option UploadResult) (labelId : Option String)
    (h : uploadImages files up ≠ []) :
    uploadImages files up = files.filterMap up ∧
    (handleUpload boardId files up labelId).inserted =
      addMultipleImagesRecords boardId (files.filterMap up) labelId ∧
    (handleUpload boardId files up labelId).successToastCount =
      some (files.filterMap up).length ∧
    (handleUpload boardId files up labelId).errorToast = false := by
  refine ⟨uploadImages_eq_filterMap files up, ?_, ?_, ?_⟩ <;>
  · cases files with
    | nil => exact absurd rfl h
    | cons f fs =>
      have hlen : 0 < (List.filterMap up (f :: fs)).length := by
        rw [← uploadImages_eq_filterMap]
        exact List.length_pos.mpr h
      simp only [handleUpload, List.isEmpty_cons, Bool.false_eq_true,
        if_false, uploadImages_eq_filterMap]
      rw [if_pos hlen]

/-- Upload behavior in which exactly the file named "f2" fails. -/
def upSkip2 : String → Option UploadResult := fun s =>
  if s == "f2" then none
  else some { driveFileId := s ++ "-id", filename := s, driveUrl := s ++ "-url" }

/-- Witness for C4: of three files with file #2 failing, insert records are
produced for files #1 and #3 only and the reported success count is 2. -/
theorem uploadImages_best_effort_witness :
    (handleUpload "b1" ["f1", "f2", "f3"] upSkip2 none).inserted =
      [{ board_id := "b1", drive_file_id := "f1-id", drive_url := "f1-url",
         filename := "f1", label_id := none },
       { board_id := "b1", drive_file_id := "f3-id", drive_url := "f3-url",
         filename := "f3", label_id := none }] ∧
    (handleUpload "b1" ["f1", "f2", "f3"] upSkip2 none).successToastCount =
      some 2 := by
  have h := uploadImages_best_effort "b1" ["f1", "f2", "f3"] upSkip2 none
    (by decide)
  refine ⟨?_, ?_⟩
  · rw [h.2.1]; decide
  · rw [h.2.2.1]; decide

/-- C6: the displayed image set is a pure function of the loaded list and
the two filters: selected-only keeps exactly the images whose flag is true,
unselected-only exactly those whose flag is false, a specific label filter
exactly those whose joined label id equals the chosen id, and both filters
together keep exactly the intersection; the result is always a sublist of
the input, which is never mutated. -/
theorem filteredImages_spec (images : List Image) (lid : String) (x : Image)
    (hlid : lid ≠ "") :
    filteredImages images FILTER_ALL "" = images ∧
    filteredImages images FILTER_SELECTED "" =
      images.filter (fun i => i.is_selected) ∧
    filteredImages images FILTER_UNSELECTED "" =
      images.filter (fun i => !i.is_selected) ∧
    filteredImages images FILTER_ALL lid =
      images.filter (labelMatches lid) ∧
    filteredImages images FILTER_SELECTED lid =
      (images.filter (fun i => i.is_selected)).filter (labelMatches lid) ∧
    (x ∈ filteredImages images FILTER_SELECTED lid ↔
      x ∈ images ∧ x.is_selected = true ∧ labelMatches lid x = true) ∧
    ∀ f l, (filteredImages images f l).Sublist images := by
  have e : (lid == "") = false := beq_eq_false_iff_ne.mpr hlid
  refine ⟨rfl, rfl, rfl, ?_, ?_, ?_, ?_⟩
  · simp [filteredImages, FILTER_ALL, FILTER_SELECTED, FILTER_UNSELECTED, e]
  · simp [filteredImages, FILTER_ALL, FILTER_SELECTED, FILTER_UNSELECTED, e]
  · simp only [filteredImages, FILTER_ALL, FILTER_SELECTED,
      FILTER_UNSELECTED, e, List.mem_filter]
    simp
    tauto
  · intro f l
    unfold filteredImages
    dsimp only
    split
    · split
      · exact List.filter_sublist _
      · split
        · exact List.filter_sublist _
        · exact List.Sublist.refl _
    · split
      · exact (List.filter_sublist _).trans (List.filter_sublist _)
      · split
        · exact (List.filter_sublist _).trans (List.filter_sublist _)
        · exact List.filter_sublist _

/-- A selected image labelled "X" (the label filter's target). -/
def imgSelX : Image :=
  { id := "s1", board_id := "b1", label_id := some "X", is_selected := true,
    created_at := 3, label := some ⟨"X", "x", "#f87171"⟩ }

/-- An unselected image labelled "Y". -/
def imgUnselY : Image :=
  { id := "s2", board_id := "b1", label_id := some "Y", is_selected := false,
    created_at := 2, label := some ⟨"Y", "y", "#60a5fa"⟩ }

/-- A selected image with no label. -/
def imgSelNone : Image :=
  { id := "s3", board_id := "b1", is_selected := true, created_at := 1 }

/-- Witness for C6 on the specification's three-image instance:
selected-only returns exactly the two selected images, label X returns
exactly the one image labelled X, and both filters return their
intersection. -/
theorem filteredImages_spec_witness :
    filteredImages [imgSelX, imgUnselY, imgSelNone] FILTER_SELECTED "" =
      [imgSelX, imgSelNone] ∧
    filteredImages [imgSelX, imgUnselY, imgSelNone] FILTER_ALL "X" =
      [imgSelX] ∧
    filteredImages [imgSelX, imgUnselY, imgSelNone] FILTER_SELECTED "X" =
      [imgSelX] := by
  have h := filteredImages_spec [imgSelX, imgUnselY, imgSelNone] "X" imgSelX
    (by decide)
  refine ⟨?_, ?_, ?_⟩
  · rw [h.2.1]; decide
  · rw [h.2.2.2.1]; decide
  · rw [h.2.2.2.2.1]; decide

/-- C7 counterexample: with the selected-only filter active on a board whose
descending-creation-order list is [imgNew, imgOld] (imgNew is the most
recently created and is selected, imgOld is not), the grid shows imgNew at
filtered index 0 with number `filteredCount - index = 1`, whereas the
claim's formula over the board's images gives `totalCount - index = 2`. -/
theorem imageNumber_filtered_counterexample :
    filteredImages [imgNew, imgOld] FILTER_SELECTED "" = [imgNew] ∧
    imageNumber
      (filteredImages [imgNew, imgOld] FILTER_SELECTED "").length 0 = 1 ∧
    ([imgNew, imgOld] : List Image).length - 0 = 2 ∧ (1 : Nat) ≠ 2 := by
  decide

/-- C7 amended: the number displayed for the card at index `i` is computed
from the *filtered* list as `filteredCount - i`; only when no filter is
active does the filtered list coincide with the full loaded list (which
`getBoardImages` orders by creation time descending), making the most
recent image's number equal to the board's total image count. -/
theorem imageNumber_displayed (images : List Image) (f l : String)
    (i : Nat) :
    imageNumber (filteredImages images f l).length i =
      (filteredImages images f l).length - i ∧
    filteredImages images FILTER_ALL "" = images ∧
    imageNumber images.length 0 = images.length :=
  ⟨rfl, rfl, Nat.sub_zero _⟩

/-- C8: in both image-deletion flows (the ImageCard modal and the Board
detail modal), `deleteImage` is issued only after `verifyDeletionPassword`
returned success for the user-supplied candidate; when verification fails no
delete request is sent and the local image list is unchanged, and a
cancelled or empty prompt issues no request at all. -/
theorem deleteImage_requires_verification (db : DB)
    (boardId imageId : String) (images : List Image) (pwd p : String)
    (deleteOk : Bool) :
    ((verifyDeletionPassword db boardId pwd).success = false →
      StoreOp.deleteImageOp imageId ∉
        (handleConfirmDelete db boardId imageId images pwd deleteOk).ops ∧
      (handleConfirmDelete db boardId imageId images pwd deleteOk).images =
        images) ∧
    (StoreOp.deleteImageOp imageId ∈
        (handleConfirmDelete db boardId imageId images pwd deleteOk).ops →
      (verifyDeletionPassword db boardId pwd).success = true) ∧
    ((verifyDeletionPassword db boardId p).success = false →
      StoreOp.deleteImageOp imageId ∉
        (boardDetailDelete db boardId imageId images (some p) deleteOk).ops ∧
      (boardDetailDelete db boardId imageId images (some p) deleteOk).images
        = images) ∧
    (StoreOp.deleteImageOp imageId ∈
        (boardDetailDelete db boardId imageId images (some p) deleteOk).ops →
      (verifyDeletionPassword db boardId p).success = true) ∧
    boardDetailDelete db boardId imageId images none deleteOk =
      { ops := [], images := images, errorToast := false } := by
  refine ⟨?_, ?_, ?_, ?_, rfl⟩
  · intro hs
    unfold handleConfirmDelete
    by_cases hp : (jsTrim pwd == "") = true
    · simp [hp]
    · simp [hp, hs]
  · intro hmem
    by_cases hs : (verifyDeletionPassword db boardId pwd).success
    · exact hs
    · exfalso
      unfold handleConfirmDelete at hmem
      by_cases hp : (jsTrim pwd == "") = true
      · simp [hp] at hmem
      · simp [hp, Bool.of_not_eq_true hs] at hmem
  · intro hs
    unfold boardDetailDelete
    by_cases hp : (p == "") = true
    · simp [hp]
    · simp [hp, hs]
  · intro hmem
    by_cases hs : (verifyDeletionPassword db boardId p).success
    · exact hs
    · exfalso
      unfold boardDetailDelete at hmem
      by_cases hp : (p == "") = true
      · simp [hp] at hmem
      · simp [hp, Bool.of_not_eq_true hs] at hmem

/-- Witness for C8: on a concrete store, a wrong deletion password sends no
delete request and leaves the local image list unchanged. -/
theorem deleteImage_requires_verification_witness :
    StoreOp.deleteImageOp "i1" ∉
      (handleConfirmDelete dbOne "b1" "i1" [imgNew] "bad" true).ops ∧
    (handleConfirmDelete dbOne "b1" "i1" [imgNew] "bad" true).images =
      [imgNew] :=
  (deleteImage_requires_verification dbOne "b1" "i1" [imgNew] "bad" "x"
    true).1 (by decide)

/-- A label row referenced by the stored image row below. -/
def labelX : LabelRow := { id := "X", board_id := "b1", name := "ref" }

/-- A stored image row referencing label "X". -/
def rowI : ImageRow :=
  { id := "i1", board_id := "b1", label_id := some "X", created_at := 1 }

/-- A store holding label "X" and the image row that references it. -/
def dbLabel : DB := { labels := [labelX], images := [rowI] }

/-- The client view after loading `dbLabel`'s board. -/
def clientLoaded : ClientState :=
  { labels := [labelX], images := getBoardImages dbLabel "b1" }

/-- C9 (code bug): after a successful label deletion the client only filters
its labels list; it issues no re-read of the board's images, so the local
image list still carries the deleted label's joined data, while re-reading
the store would show the reference cleared to null by the storage cascade. -/
theorem labelDelete_no_image_refresh :
    (clientLoaded.images.map (fun i => i.label)) =
      [some (labelInfoOf labelX)] ∧
    (handleDeleteLabel dbLabel clientLoaded "X" true true).client.images =
      clientLoaded.images ∧
    (handleDeleteLabel dbLabel clientLoaded "X" true true).ops =
      [.deleteLabelOp "X"] ∧
    StoreOp.getBoardImagesOp "b1" ∉
      (handleDeleteLabel dbLabel clientLoaded "X" true true).ops ∧
    (getBoardImages
        (handleDeleteLabel dbLabel clientLoaded "X" true true).db "b1").map
      (fun i => i.label) = [none] := by
  decide

end Moodboard
